import Mathlib

/-!
Verification of the language-benchmark script `bench_python.py`.

The script is a straight-line benchmark suite: five timing loops, each
wrapped in two clock reads, followed by a formatted report row.  We embed
it shallowly:

* Python floats are modelled as rationals (`ℚ`);
* `time.time()` is modelled as a clock stream `Nat → ℚ`, one reading per
  call, consumed in order;
* `print` output is modelled as a list of lines (`List String`);
* Python's `/` on a zero divisor raises `ZeroDivisionError`; fallible
  division is `pyDiv : ℚ → ℚ → Except String ℚ`, and a benchmark run is
  `Except (String × List String) St` where an error carries the lines
  already printed when the exception escaped;
* the f-string format specifiers `:<15`, `:>15`, `:,.2f`, `:.4f` are
  embedded as explicit padding / fixed-point rendering functions over `ℚ`
  with round-half-to-even.
-/

namespace LangBench

/-- Round-half-to-even of a rational to an integer, as float formatting does. -/
def roundHalfEven (q : ℚ) : ℤ :=
  if q - Rat.floor q < 1 / 2 then Rat.floor q
  else if q - Rat.floor q > 1 / 2 then Rat.floor q + 1
  else if Rat.floor q % 2 = 0 then Rat.floor q else Rat.floor q + 1

/-- Integer-part digits and fractional-part digits of `q` rendered to `prec`
decimal places (sign handled separately), for the f-string `.Nf` specifier. -/
def fixedParts (q : ℚ) (prec : Nat) : List Char × List Char :=
  let n := (roundHalfEven (q * (10 : ℚ) ^ prec)).natAbs
  let ds := Nat.toDigits 10 n
  let padded := if ds.length < prec + 1
    then List.replicate (prec + 1 - ds.length) '0' ++ ds else ds
  (padded.take (padded.length - prec), padded.drop (padded.length - prec))

/-- Sign rendered by float formatting: a minus sign exactly when the value is
negative (Python renders -0.001 at .2f as "-0.00"). -/
def pySign (q : ℚ) : String :=
  if q < 0 then "-" else ""

/-- The f-string `.4f` style specifier: fixed-point with `prec` decimals. -/
def formatFixed (q : ℚ) (prec : Nat) : String :=
  pySign q ++ String.mk (fixedParts q prec).1 ++ "." ++ String.mk (fixedParts q prec).2

/-- Insert a comma after every three characters of a reversed digit list. -/
def group3Rev : List Char → List Char
  | a :: b :: c :: d :: rest => a :: b :: c :: ',' :: group3Rev (d :: rest)
  | l => l

/-- Group integer-part digits in threes from the right, comma-separated. -/
def commaGroup (l : List Char) : List Char :=
  (group3Rev l.reverse).reverse

/-- The f-string `,.2f` style specifier: grouped thousands, `prec` decimals. -/
def formatComma (q : ℚ) (prec : Nat) : String :=
  pySign q ++ String.mk (commaGroup (fixedParts q prec).1) ++ "." ++ String.mk (fixedParts q prec).2

/-- The f-string `:<w` specifier: left-justify, pad with spaces on the right. -/
def padRight (s : String) (w : Nat) : String :=
  s ++ String.mk (List.replicate (w - s.length) ' ')

/-- The f-string `:>w` specifier: right-justify, pad with spaces on the left. -/
def padLeft (s : String) (w : Nat) : String :=
  String.mk (List.replicate (w - s.length) ' ') ++ s

/-- The separator rule printed by `print_header` and at the end of `__main__`. -/
def dashRule : String :=
  "  -------------------------------------------------------------"

/-- The title line printed first by `__main__`. -/
def title : String :=
  ">>> Python 3 Benchmark Suite <<<"

/-- `print_header()`: the three lines it prints. -/
def print_header : List String :=
  [dashRule,
   "  " ++ padRight "Benchmark" 15 ++ " | " ++ padLeft "Performance" 15 ++ " | Time",
   dashRule]

/-- `print_result(name, ops, sec)`: the single line it prints. -/
def print_result (name : String) (ops sec : ℚ) : List String :=
  ["  " ++ padRight name 15 ++ " | " ++ padLeft (formatComma ops 2) 15
    ++ " OPS/sec | " ++ formatFixed sec 4 ++ "s"]

/-- The loop of `bench_int`: `i = 0; while i < limit: i += 1`.  The loop
variable itself is the incremented counter; the function returns its final
value. -/
def intLoop (limit : Nat) (i : Nat) : Nat :=
  if i < limit then intLoop limit (i + 1) else i
termination_by limit - i

/-- A counted `while i < limit` loop threading a state `a` through `step`,
starting the counter at `i`; returns the final state and the final counter. -/
def whileLoop (step : α → Nat → α) (limit : Nat) (i : Nat) (a : α) : α × Nat :=
  if i < limit then whileLoop step limit (i + 1) (step a i) else (a, i)
termination_by limit - i

/-- Body of the `bench_double` loop: `val += 1.1`. -/
def doubleStep (val : ℚ) (_ : Nat) : ℚ :=
  val + 11 / 10

/-- Body of the `bench_string` loop: `s += "a"`. -/
def stringStep (s : String) (_ : Nat) : String :=
  s ++ "a"

/-- Body of the `bench_array` loop: `arr.append(i)`. -/
def arrayStep (arr : List Nat) (i : Nat) : List Nat :=
  arr ++ [i]

/-- The class `Obj`: a single mutable numeric field `val`, initialised to 0
by `__init__`. -/
structure Obj where
  val : Nat
deriving DecidableEq

/-- Body of the `bench_struct` loop: `o.val = i; x = o.val`.  The state is
the object together with the last value read into `x`. -/
def structStep (p : Obj × Nat) (i : Nat) : Obj × Nat :=
  let o := Obj.mk i
  (o, o.val)

/-- Interpreter state: the index of the next `time.time()` reading to consume,
and the lines printed so far. -/
structure St where
  tick : Nat
  out : List String
deriving DecidableEq

/-- Python's `/` on numbers: raises `ZeroDivisionError` on a zero divisor,
otherwise exact (float) division, modelled on `ℚ`. -/
def pyDiv (a b : ℚ) : Except String ℚ :=
  if b = 0 then Except.error "ZeroDivisionError: float division by zero"
  else Except.ok (a / b)

/-- `bench_int()`: two clock reads around a 10^9-iteration counting loop,
then `ops = limit / sec` and one printed row.  An uncaught
`ZeroDivisionError` carries the lines already printed. -/
def bench_int (clock : Nat → ℚ) (s : St) : Except (String × List String) St :=
  let limit : Nat := 1000000000
  let start := clock s.tick
  let i := intLoop limit 0
  let endT := clock (s.tick + 1)
  let sec := endT - start
  match pyDiv (limit : ℚ) sec with
  | Except.error e => Except.error (e, s.out)
  | Except.ok ops => Except.ok (St.mk (s.tick + 2) (s.out ++ print_result "Integer Add" ops sec))

/-- `bench_double()`: 10^8 iterations of `val += 1.1` between two clock reads. -/
def bench_double (clock : Nat → ℚ) (s : St) : Except (String × List String) St :=
  let limit : Nat := 100000000
  let val : ℚ := 0
  let start := clock s.tick
  let val := (whileLoop doubleStep limit 0 val).1
  let endT := clock (s.tick + 1)
  let sec := endT - start
  match pyDiv (limit : ℚ) sec with
  | Except.error e => Except.error (e, s.out)
  | Except.ok ops => Except.ok (St.mk (s.tick + 2) (s.out ++ print_result "Double Arith" ops sec))

/-- `bench_string()`: 50000 iterations of `s += "a"` between two clock reads. -/
def bench_string (clock : Nat → ℚ) (s : St) : Except (String × List String) St :=
  let limit : Nat := 50000
  let start := clock s.tick
  let buf := (whileLoop stringStep limit 0 "").1
  let endT := clock (s.tick + 1)
  let sec := endT - start
  match pyDiv (limit : ℚ) sec with
  | Except.error e => Except.error (e, s.out)
  | Except.ok ops => Except.ok (St.mk (s.tick + 2) (s.out ++ print_result "String Concat" ops sec))

/-- `bench_array()`: 10^6 iterations of `arr.append(i)` between two clock reads. -/
def bench_array (clock : Nat → ℚ) (s : St) : Except (String × List String) St :=
  let limit : Nat := 1000000
  let start := clock s.tick
  let arr := (whileLoop arrayStep limit 0 []).1
  let endT := clock (s.tick + 1)
  let sec := endT - start
  match pyDiv (limit : ℚ) sec with
  | Except.error e => Except.error (e, s.out)
  | Except.ok ops => Except.ok (St.mk (s.tick + 2) (s.out ++ print_result "Array Push" ops sec))

/-- `bench_struct()`: the object is created once before the loop; 5·10^7
iterations of `o.val = i; x = o.val` between two clock reads. -/
def bench_struct (clock : Nat → ℚ) (s : St) : Except (String × List String) St :=
  let limit : Nat := 50000000
  let o := Obj.mk 0
  let start := clock s.tick
  let r := (whileLoop structStep limit 0 (o, 0)).1
  let endT := clock (s.tick + 1)
  let sec := endT - start
  match pyDiv (limit : ℚ) sec with
  | Except.error e => Except.error (e, s.out)
  | Except.ok ops => Except.ok (St.mk (s.tick + 2) (s.out ++ print_result "Struct Access" ops sec))

/-- The `__main__` block: title, header, the five benchmarks in order, final
rule and blank line.  The result is the full stdout transcript, or the error
together with the lines printed before the exception escaped. -/
def pymain (clock : Nat → ℚ) : Except (String × List String) (List String) :=
  let s : St := St.mk 0 ([title] ++ print_header)
  match bench_int clock s with
  | Except.error e => Except.error e
  | Except.ok s =>
  match bench_double clock s with
  | Except.error e => Except.error e
  | Except.ok s =>
  match bench_string clock s with
  | Except.error e => Except.error e
  | Except.ok s =>
  match bench_array clock s with
  | Except.error e => Except.error e
  | Except.ok s =>
  match bench_struct clock s with
  | Except.error e => Except.error e
  | Except.ok s => Except.ok (s.out ++ [dashRule, ""])

/-- The report as a function of the five elapsed times alone: the shape every
successful run's transcript takes. -/
def report (t1 t2 t3 t4 t5 : ℚ) : List String :=
  [title] ++ print_header
    ++ print_result "Integer Add" (1000000000 / t1) t1
    ++ print_result "Double Arith" (100000000 / t2) t2
    ++ print_result "String Concat" (50000 / t3) t3
    ++ print_result "Array Push" (1000000 / t4) t4
    ++ print_result "Struct Access" (50000000 / t5) t5
    ++ [dashRule, ""]

/-- The label field of a printed line: its first 17 characters (two spaces of
indent plus the 15-character name column). -/
def lineLabel (s : String) : String :=
  String.mk (s.data.take 17)

/-- A concrete test clock: the n-th reading is n seconds. -/
def tclock (n : Nat) : ℚ :=
  n

/-- A second concrete test clock with different readings: 2n seconds. -/
def tclock2 (n : Nat) : ℚ :=
  2 * n

/-! ### Loop lemmas -/

theorem intLoop_eq (limit : Nat) :
    ∀ n i, limit - i = n → i ≤ limit → intLoop limit i = limit := by
  intro n
  induction n with
  | zero =>
    intro i hn hi
    rw [intLoop, if_neg (by omega)]
    omega
  | succ m ih =>
    intro i hn hi
    rw [intLoop, if_pos (by omega)]
    exact ih (i + 1) (by omega) (by omega)

theorem intLoop_zero (limit : Nat) : intLoop limit 0 = limit :=
  intLoop_eq limit limit 0 (by omega) (by omega)

theorem whileLoop_eq_foldl (step : α → Nat → α) (limit : Nat) :
    ∀ n i a, limit - i = n → i ≤ limit →
      whileLoop step limit i a = ((List.range' i n).foldl step a, limit) := by
  intro n
  induction n with
  | zero =>
    intro i a hn hi
    have : ¬ i < limit := by omega
    rw [whileLoop, if_neg this]
    simp
    omega
  | succ m ih =>
    intro i a hn hi
    have hlt : i < limit := by omega
    rw [whileLoop, if_pos hlt, List.range'_succ]
    simp only [List.foldl_cons]
    exact ih (i + 1) (step a i) (by omega) (by omega)

theorem whileLoop_zero (step : α → Nat → α) (limit : Nat) (a : α) :
    whileLoop step limit 0 a = ((List.range limit).foldl step a, limit) := by
  rw [List.range_eq_range']
  exact whileLoop_eq_foldl step limit limit 0 a (by omega) (by omega)

theorem foldl_doubleStep (n : Nat) (v : ℚ) :
    (List.range n).foldl doubleStep v = v + n * (11 / 10) := by
  induction n with
  | zero => simp
  | succ m ih =>
    rw [List.range_succ, List.foldl_append, ih]
    simp only [List.foldl_cons, List.foldl_nil, doubleStep]
    push_cast
    ring

theorem foldl_stringStep (n : Nat) (s : String) :
    (List.range n).foldl stringStep s = String.mk (s.data ++ List.replicate n 'a') := by
  induction n with
  | zero => simp
  | succ m ih =>
    rw [List.range_succ, List.foldl_append, ih]
    simp only [List.foldl_cons, List.foldl_nil, stringStep]
    apply String.ext
    simp [String.data_append, List.replicate_succ']

theorem foldl_arrayStep (n : Nat) (l : List Nat) :
    (List.range n).foldl arrayStep l = l ++ List.range n := by
  induction n with
  | zero => simp
  | succ m ih =>
    rw [List.range_succ, List.foldl_append, ih]
    simp [arrayStep, List.range_succ]

theorem foldl_structStep (n : Nat) (p : Obj × Nat) :
    (List.range (n + 1)).foldl structStep p = (Obj.mk n, n) := by
  rw [List.range_succ, List.foldl_append]
  rfl

/-! ### Benchmark-level lemmas -/

theorem bench_int_ok (clock : Nat → ℚ) (s : St)
    (h : clock (s.tick + 1) - clock s.tick ≠ 0) :
    bench_int clock s = Except.ok (St.mk (s.tick + 2) (s.out ++
      print_result "Integer Add"
        (((1000000000 : Nat) : ℚ) / (clock (s.tick + 1) - clock s.tick))
        (clock (s.tick + 1) - clock s.tick))) := by
  rw [bench_int]
  simp [pyDiv, h]

theorem bench_int_err (clock : Nat → ℚ) (s : St)
    (h : clock (s.tick + 1) - clock s.tick = 0) :
    bench_int clock s =
      Except.error ("ZeroDivisionError: float division by zero", s.out) := by
  rw [bench_int]
  simp [pyDiv, h]

theorem bench_double_ok (clock : Nat → ℚ) (s : St)
    (h : clock (s.tick + 1) - clock s.tick ≠ 0) :
    bench_double clock s = Except.ok (St.mk (s.tick + 2) (s.out ++
      print_result "Double Arith"
        (((100000000 : Nat) : ℚ) / (clock (s.tick + 1) - clock s.tick))
        (clock (s.tick + 1) - clock s.tick))) := by
  rw [bench_double]
  simp [pyDiv, h]

theorem bench_double_err (clock : Nat → ℚ) (s : St)
    (h : clock (s.tick + 1) - clock s.tick = 0) :
    bench_double clock s =
      Except.error ("ZeroDivisionError: float division by zero", s.out) := by
  rw [bench_double]
  simp [pyDiv, h]

theorem bench_string_ok (clock : Nat → ℚ) (s : St)
    (h : clock (s.tick + 1) - clock s.tick ≠ 0) :
    bench_string clock s = Except.ok (St.mk (s.tick + 2) (s.out ++
      print_result "String Concat"
        (((50000 : Nat) : ℚ) / (clock (s.tick + 1) - clock s.tick))
        (clock (s.tick + 1) - clock s.tick))) := by
  rw [bench_string]
  simp [pyDiv, h]

theorem bench_string_err (clock : Nat → ℚ) (s : St)
    (h : clock (s.tick + 1) - clock s.tick = 0) :
    bench_string clock s =
      Except.error ("ZeroDivisionError: float division by zero", s.out) := by
  rw [bench_string]
  simp [pyDiv, h]

theorem bench_array_ok (clock : Nat → ℚ) (s : St)
    (h : clock (s.tick + 1) - clock s.tick ≠ 0) :
    bench_array clock s = Except.ok (St.mk (s.tick + 2) (s.out ++
      print_result "Array Push"
        (((1000000 : Nat) : ℚ) / (clock (s.tick + 1) - clock s.tick))
        (clock (s.tick + 1) - clock s.tick))) := by
  rw [bench_array]
  simp [pyDiv, h]

theorem bench_array_err (clock : Nat → ℚ) (s : St)
    (h : clock (s.tick + 1) - clock s.tick = 0) :
    bench_array clock s =
      Except.error ("ZeroDivisionError: float division by zero", s.out) := by
  rw [bench_array]
  simp [pyDiv, h]

theorem bench_struct_ok (clock : Nat → ℚ) (s : St)
    (h : clock (s.tick + 1) - clock s.tick ≠ 0) :
    bench_struct clock s = Except.ok (St.mk (s.tick + 2) (s.out ++
      print_result "Struct Access"
        (((50000000 : Nat) : ℚ) / (clock (s.tick + 1) - clock s.tick))
        (clock (s.tick + 1) - clock s.tick))) := by
  rw [bench_struct]
  simp [pyDiv, h]

theorem bench_struct_err (clock : Nat → ℚ) (s : St)
    (h : clock (s.tick + 1) - clock s.tick = 0) :
    bench_struct clock s =
      Except.error ("ZeroDivisionError: float division by zero", s.out) := by
  rw [bench_struct]
  simp [pyDiv, h]

theorem pymain_ok (clock : Nat → ℚ)
    (h1 : clock 1 - clock 0 ≠ 0) (h2 : clock 3 - clock 2 ≠ 0)
    (h3 : clock 5 - clock 4 ≠ 0) (h4 : clock 7 - clock 6 ≠ 0)
    (h5 : clock 9 - clock 8 ≠ 0) :
    pymain clock = Except.ok (report (clock 1 - clock 0) (clock 3 - clock 2)
      (clock 5 - clock 4) (clock 7 - clock 6) (clock 9 - clock 8)) := by
  simp [pymain, bench_int_ok, bench_double_ok, bench_string_ok, bench_array_ok,
    bench_struct_ok, h1, h2, h3, h4, h5, report, List.append_assoc]

/-! ### Formatting lemmas -/

theorem fixedParts_snd_length (q : ℚ) (prec : Nat) :
    ((fixedParts q prec).2).length = prec := by
  simp only [fixedParts]
  split
  · rename_i h
    simp only [List.length_drop, List.length_append, List.length_replicate]
    omega
  · rename_i h
    simp only [List.length_drop]
    omega

theorem padRight_length (s : String) (w : Nat) :
    (padRight s w).length = max s.length w := by
  simp only [padRight, String.length_append, String.length_mk, List.length_replicate]
  omega

theorem padLeft_length (s : String) (w : Nat) :
    (padLeft s w).length = max s.length w := by
  simp only [padLeft, String.length_append, String.length_mk, List.length_replicate]
  omega

theorem filter_cons_congr (p : Char → Bool) (x : Char) {l1 l2 : List Char}
    (h : l1.filter p = l2.filter p) : (x :: l1).filter p = (x :: l2).filter p := by
  simp [List.filter_cons, h]

theorem group3Rev_filter :
    ∀ l : List Char, (group3Rev l).filter (fun c => c != ',') =
      l.filter (fun c => c != ',')
  | [] => rfl
  | [_] => rfl
  | [_, _] => rfl
  | [_, _, _] => rfl
  | a :: b :: c :: d :: rest => by
    rw [group3Rev]
    apply filter_cons_congr
    apply filter_cons_congr
    apply filter_cons_congr
    rw [show (((',' : Char) :: group3Rev (d :: rest)).filter (fun c => c != ',')) =
      (group3Rev (d :: rest)).filter (fun c => c != ',') by simp [List.filter_cons]]
    exact group3Rev_filter (d :: rest)

theorem commaGroup_filter (l : List Char) :
    (commaGroup l).filter (fun c => c != ',') = l.filter (fun c => c != ',') := by
  rw [commaGroup, List.filter_reverse, group3Rev_filter, List.filter_reverse,
    List.reverse_reverse]

theorem group3Rev_length :
    ∀ l : List Char, (group3Rev l).length = l.length + (l.length - 1) / 3
  | [] => by simp [group3Rev]
  | [_] => by simp [group3Rev]
  | [_, _] => by simp [group3Rev]
  | [_, _, _] => by simp [group3Rev]
  | a :: b :: c :: d :: rest => by
    rw [group3Rev]
    simp only [List.length_cons, group3Rev_length (d :: rest)]
    omega

theorem commaGroup_length (l : List Char) :
    (commaGroup l).length = l.length + (l.length - 1) / 3 := by
  simp [commaGroup, group3Rev_length]

/-! ### Label-extraction lemmas -/

theorem lineLabel_prefix (a b : String) (h : a.data.length = 17) :
    lineLabel (a ++ b) = a := by
  rw [lineLabel, String.data_append, List.take_left' h]

theorem lineLabel_row (name x y : String) (h : ("  " ++ padRight name 15).data.length = 17) :
    lineLabel ("  " ++ padRight name 15 ++ " | " ++ x ++ " OPS/sec | " ++ y ++ "s") =
      "  " ++ padRight name 15 := by
  rw [show "  " ++ padRight name 15 ++ " | " ++ x ++ " OPS/sec | " ++ y ++ "s" =
      ("  " ++ padRight name 15) ++ (" | " ++ (x ++ (" OPS/sec | " ++ (y ++ "s")))) by
    simp [String.append_assoc]]
  exact lineLabel_prefix _ _ h

theorem report_labels (t1 t2 t3 t4 t5 : ℚ) :
    (report t1 t2 t3 t4 t5).map lineLabel =
      [lineLabel title, lineLabel dashRule,
       lineLabel ("  " ++ padRight "Benchmark" 15 ++ " | " ++ padLeft "Performance" 15 ++ " | Time"),
       lineLabel dashRule,
       "  " ++ padRight "Integer Add" 15, "  " ++ padRight "Double Arith" 15,
       "  " ++ padRight "String Concat" 15, "  " ++ padRight "Array Push" 15,
       "  " ++ padRight "Struct Access" 15,
       lineLabel dashRule, lineLabel ""] := by
  simp only [report, print_header, print_result, List.cons_append, List.nil_append,
    List.singleton_append, List.map_cons, List.map_nil]
  simp only [lineLabel_row "Integer Add" _ _ (by decide),
    lineLabel_row "Double Arith" _ _ (by decide),
    lineLabel_row "String Concat" _ _ (by decide),
    lineLabel_row "Array Push" _ _ (by decide),
    lineLabel_row "Struct Access" _ _ (by decide)]

/-! ### Claim theorems -/

/-- Claim C1, counterexample: with a clock whose readings are all 0 the first
benchmark's elapsed time reads as 0, and the run does NOT continue: the
division `limit / sec` raises an uncaught `ZeroDivisionError` that aborts the
whole run, so only the four pre-benchmark lines are ever printed and no
benchmark row appears — contradicting "every subsequent benchmark still runs
and prints its row". -/
theorem c1_counterexample :
    pymain (fun _ => 0) =
      Except.error ("ZeroDivisionError: float division by zero",
        [title] ++ print_header) ∧
    ([title] ++ print_header).length = 4 := by
  constructor
  · simp [pymain, bench_int_err]
  · rfl

/-- Claim C1, amended: if the elapsed time sampled by a benchmark reads as 0,
the throughput computation raises an uncaught `ZeroDivisionError` which aborts
that benchmark's row and every subsequent benchmark: the transcript ends with
the lines printed before the division, and no later benchmark runs. -/
theorem c1_zero_elapsed_aborts (clock : Nat → ℚ) :
    (clock 1 - clock 0 = 0 →
      pymain clock = Except.error ("ZeroDivisionError: float division by zero",
        [title] ++ print_header)) ∧
    (clock 1 - clock 0 ≠ 0 → clock 3 - clock 2 = 0 →
      pymain clock = Except.error ("ZeroDivisionError: float division by zero",
        [title] ++ print_header ++
          print_result "Integer Add"
            (((1000000000 : Nat) : ℚ) / (clock 1 - clock 0)) (clock 1 - clock 0))) ∧
    (clock 1 - clock 0 ≠ 0 → clock 3 - clock 2 ≠ 0 → clock 5 - clock 4 = 0 →
      pymain clock = Except.error ("ZeroDivisionError: float division by zero",
        [title] ++ print_header ++
          print_result "Integer Add"
            (((1000000000 : Nat) : ℚ) / (clock 1 - clock 0)) (clock 1 - clock 0) ++
          print_result "Double Arith"
            (((100000000 : Nat) : ℚ) / (clock 3 - clock 2)) (clock 3 - clock 2))) ∧
    (clock 1 - clock 0 ≠ 0 → clock 3 - clock 2 ≠ 0 → clock 5 - clock 4 ≠ 0 →
      clock 7 - clock 6 = 0 →
      pymain clock = Except.error ("ZeroDivisionError: float division by zero",
        [title] ++ print_header ++
          print_result "Integer Add"
            (((1000000000 : Nat) : ℚ) / (clock 1 - clock 0)) (clock 1 - clock 0) ++
          print_result "Double Arith"
            (((100000000 : Nat) : ℚ) / (clock 3 - clock 2)) (clock 3 - clock 2) ++
          print_result "String Concat"
            (((50000 : Nat) : ℚ) / (clock 5 - clock 4)) (clock 5 - clock 4))) ∧
    (clock 1 - clock 0 ≠ 0 → clock 3 - clock 2 ≠ 0 → clock 5 - clock 4 ≠ 0 →
      clock 7 - clock 6 ≠ 0 → clock 9 - clock 8 = 0 →
      pymain clock = Except.error ("ZeroDivisionError: float division by zero",
        [title] ++ print_header ++
          print_result "Integer Add"
            (((1000000000 : Nat) : ℚ) / (clock 1 - clock 0)) (clock 1 - clock 0) ++
          print_result "Double Arith"
            (((100000000 : Nat) : ℚ) / (clock 3 - clock 2)) (clock 3 - clock 2) ++
          print_result "String Concat"
            (((50000 : Nat) : ℚ) / (clock 5 - clock 4)) (clock 5 - clock 4) ++
          print_result "Array Push"
            (((1000000 : Nat) : ℚ) / (clock 7 - clock 6)) (clock 7 - clock 6))) := by
  refine ⟨fun h1 => ?_, fun h1 h2 => ?_, fun h1 h2 h3 => ?_,
    fun h1 h2 h3 h4 => ?_, fun h1 h2 h3 h4 h5 => ?_⟩
  · simp [pymain, bench_int_err, h1]
  · simp [pymain, bench_int_ok, bench_double_err, h1, h2, List.append_assoc]
  · simp [pymain, bench_int_ok, bench_double_ok, bench_string_err,
      h1, h2, h3, List.append_assoc]
  · simp [pymain, bench_int_ok, bench_double_ok, bench_string_ok, bench_array_err,
      h1, h2, h3, h4, List.append_assoc]
  · simp [pymain, bench_int_ok, bench_double_ok, bench_string_ok, bench_array_ok,
      bench_struct_err, h1, h2, h3, h4, h5, List.append_assoc]

/-- Witness for the amended C1: a constant clock reading 5 gives a zero
elapsed time for the first benchmark, and the run aborts with only the title
and header printed. -/
theorem c1_zero_elapsed_aborts_witness :
    pymain (fun _ => 5) = Except.error ("ZeroDivisionError: float division by zero",
      [title] ++ print_header) :=
  (c1_zero_elapsed_aborts (fun _ => 5)).1 (by norm_num)

/-- Claim C2: for every benchmark, whenever the sampled elapsed time
`end - start` is non-zero, the throughput handed to `print_result` is exactly
`iteration_count / elapsed` (a single exact division on the number model),
and the elapsed value handed over is exactly the end reading minus the start
reading of that benchmark. -/
theorem c2_throughput_exact (clock : Nat → ℚ) (s : St) :
    (clock (s.tick + 1) - clock s.tick ≠ 0 →
      bench_int clock s = Except.ok (St.mk (s.tick + 2) (s.out ++
        print_result "Integer Add"
          (((1000000000 : Nat) : ℚ) / (clock (s.tick + 1) - clock s.tick))
          (clock (s.tick + 1) - clock s.tick)))) ∧
    (clock (s.tick + 1) - clock s.tick ≠ 0 →
      bench_double clock s = Except.ok (St.mk (s.tick + 2) (s.out ++
        print_result "Double Arith"
          (((100000000 : Nat) : ℚ) / (clock (s.tick + 1) - clock s.tick))
          (clock (s.tick + 1) - clock s.tick)))) ∧
    (clock (s.tick + 1) - clock s.tick ≠ 0 →
      bench_string clock s = Except.ok (St.mk (s.tick + 2) (s.out ++
        print_result "String Concat"
          (((50000 : Nat) : ℚ) / (clock (s.tick + 1) - clock s.tick))
          (clock (s.tick + 1) - clock s.tick)))) ∧
    (clock (s.tick + 1) - clock s.tick ≠ 0 →
      bench_array clock s = Except.ok (St.mk (s.tick + 2) (s.out ++
        print_result "Array Push"
          (((1000000 : Nat) : ℚ) / (clock (s.tick + 1) - clock s.tick))
          (clock (s.tick + 1) - clock s.tick)))) ∧
    (clock (s.tick + 1) - clock s.tick ≠ 0 →
      bench_struct clock s = Except.ok (St.mk (s.tick + 2) (s.out ++
        print_result "Struct Access"
          (((50000000 : Nat) : ℚ) / (clock (s.tick + 1) - clock s.tick))
          (clock (s.tick + 1) - clock s.tick)))) :=
  ⟨bench_int_ok clock s, bench_double_ok clock s, bench_string_ok clock s,
    bench_array_ok clock s, bench_struct_ok clock s⟩

/-- Witness for C2: the identity clock gives elapsed time 1 for the integer
benchmark starting at tick 0, and the printed throughput is the iteration
count divided by that elapsed time. -/
theorem c2_throughput_exact_witness :
    bench_int tclock (St.mk 0 []) = Except.ok (St.mk (0 + 2) ([] ++
      print_result "Integer Add"
        (((1000000000 : Nat) : ℚ) / (tclock (0 + 1) - tclock 0))
        (tclock (0 + 1) - tclock 0))) :=
  (c2_throughput_exact tclock (St.mk 0 [])).1 (by norm_num [tclock])

/-- Claim C3: whenever every benchmark's sampled elapsed time is non-zero,
the run prints exactly 11 lines: title, rule, the header row (whose column
titles read Benchmark | Performance | Time with their fixed padding), rule,
then exactly 5 data rows in the fixed order Integer Add, Double Arith,
String Concat, Array Push, Struct Access — the first data row's label being
exactly "Integer Add" — then the closing rule and a blank line.  Each
benchmark's row is fully determined by its own two clock readings, taken in
sequence, so each benchmark completes (including its print) before the next
begins. -/
theorem c3_report_rows (clock : Nat → ℚ)
    (h1 : clock 1 - clock 0 ≠ 0) (h2 : clock 3 - clock 2 ≠ 0)
    (h3 : clock 5 - clock 4 ≠ 0) (h4 : clock 7 - clock 6 ≠ 0)
    (h5 : clock 9 - clock 8 ≠ 0) :
    pymain clock = Except.ok
      [title, dashRule,
       "  " ++ padRight "Benchmark" 15 ++ " | " ++ padLeft "Performance" 15 ++ " | Time",
       dashRule,
       "  " ++ padRight "Integer Add" 15 ++ " | " ++
         padLeft (formatComma (((1000000000 : Nat) : ℚ) / (clock 1 - clock 0)) 2) 15 ++
         " OPS/sec | " ++ formatFixed (clock 1 - clock 0) 4 ++ "s",
       "  " ++ padRight "Double Arith" 15 ++ " | " ++
         padLeft (formatComma (((100000000 : Nat) : ℚ) / (clock 3 - clock 2)) 2) 15 ++
         " OPS/sec | " ++ formatFixed (clock 3 - clock 2) 4 ++ "s",
       "  " ++ padRight "String Concat" 15 ++ " | " ++
         padLeft (formatComma (((50000 : Nat) : ℚ) / (clock 5 - clock 4)) 2) 15 ++
         " OPS/sec | " ++ formatFixed (clock 5 - clock 4) 4 ++ "s",
       "  " ++ padRight "Array Push" 15 ++ " | " ++
         padLeft (formatComma (((1000000 : Nat) : ℚ) / (clock 7 - clock 6)) 2) 15 ++
         " OPS/sec | " ++ formatFixed (clock 7 - clock 6) 4 ++ "s",
       "  " ++ padRight "Struct Access" 15 ++ " | " ++
         padLeft (formatComma (((50000000 : Nat) : ℚ) / (clock 9 - clock 8)) 2) 15 ++
         " OPS/sec | " ++ formatFixed (clock 9 - clock 8) 4 ++ "s",
       dashRule, ""] := by
  rw [pymain_ok clock h1 h2 h3 h4 h5]
  simp [report, print_result, print_header]

/-- Witness for C3: the identity clock yields the full 11-line report with
every elapsed time equal to one second. -/
theorem c3_report_rows_witness :
    pymain tclock = Except.ok
      [title, dashRule,
       "  " ++ padRight "Benchmark" 15 ++ " | " ++ padLeft "Performance" 15 ++ " | Time",
       dashRule,
       "  " ++ padRight "Integer Add" 15 ++ " | " ++
         padLeft (formatComma (((1000000000 : Nat) : ℚ) / (tclock 1 - tclock 0)) 2) 15 ++
         " OPS/sec | " ++ formatFixed (tclock 1 - tclock 0) 4 ++ "s",
       "  " ++ padRight "Double Arith" 15 ++ " | " ++
         padLeft (formatComma (((100000000 : Nat) : ℚ) / (tclock 3 - tclock 2)) 2) 15 ++
         " OPS/sec | " ++ formatFixed (tclock 3 - tclock 2) 4 ++ "s",
       "  " ++ padRight "String Concat" 15 ++ " | " ++
         padLeft (formatComma (((50000 : Nat) : ℚ) / (tclock 5 - tclock 4)) 2) 15 ++
         " OPS/sec | " ++ formatFixed (tclock 5 - tclock 4) 4 ++ "s",
       "  " ++ padRight "Array Push" 15 ++ " | " ++
         padLeft (formatComma (((1000000 : Nat) : ℚ) / (tclock 7 - tclock 6)) 2) 15 ++
         " OPS/sec | " ++ formatFixed (tclock 7 - tclock 6) 4 ++ "s",
       "  " ++ padRight "Struct Access" 15 ++ " | " ++
         padLeft (formatComma (((50000000 : Nat) : ℚ) / (tclock 9 - tclock 8)) 2) 15 ++
         " OPS/sec | " ++ formatFixed (tclock 9 - tclock 8) 4 ++ "s",
       dashRule, ""] :=
  c3_report_rows tclock (by norm_num [tclock]) (by norm_num [tclock])
    (by norm_num [tclock]) (by norm_num [tclock]) (by norm_num [tclock])

/-- Claim C4: `print_result` emits exactly one row, laid out as the name
left-justified in a 15-character field, a pipe separator, the throughput
right-aligned in a 15-character field rendered with grouped thousands and 2
decimal digits followed by the literal " OPS/sec", a pipe separator, and the
elapsed seconds rendered with exactly 4 decimal digits followed by a literal
"s".  The padding fields have width exactly `max 15 (content width)`, the
fractional parts have exactly 2 and 4 digits, and the thousands grouping
only inserts commas, preserving the digits. -/
theorem c4_print_result_format (name : String) (ops sec : ℚ) :
    (print_result name ops sec).length = 1 ∧
    print_result name ops sec =
      ["  " ++ padRight name 15 ++ " | " ++ padLeft (formatComma ops 2) 15 ++
        " OPS/sec | " ++ formatFixed sec 4 ++ "s"] ∧
    (padRight name 15).length = max name.length 15 ∧
    (padLeft (formatComma ops 2) 15).length = max (formatComma ops 2).length 15 ∧
    formatComma ops 2 = pySign ops ++ String.mk (commaGroup (fixedParts ops 2).1)
      ++ "." ++ String.mk (fixedParts ops 2).2 ∧
    ((fixedParts ops 2).2).length = 2 ∧
    (commaGroup (fixedParts ops 2).1).filter (fun c => c != ',') =
      ((fixedParts ops 2).1).filter (fun c => c != ',') ∧
    formatFixed sec 4 = pySign sec ++ String.mk (fixedParts sec 4).1
      ++ "." ++ String.mk (fixedParts sec 4).2 ∧
    ((fixedParts sec 4).2).length = 4 :=
  ⟨rfl, rfl, padRight_length name 15, padLeft_length (formatComma ops 2) 15, rfl,
    fixedParts_snd_length ops 2, commaGroup_filter (fixedParts ops 2).1, rfl,
    fixedParts_snd_length sec 4⟩

/-- Claim C5, counterexample: `print_header` does not emit a title line —
the title is printed separately by `__main__`.  No line of `print_header`'s
output is the title, and its first line is a separator rule, refuting the
claim's enumeration "a title line, a column-header line, and a separator
rule". -/
theorem c5_counterexample :
    title ∉ print_header ∧ print_header.get? 0 = some dashRule := by
  refine ⟨by decide, rfl⟩

/-- Claim C5, amended: `print_header` takes no inputs (so its output is the
same on every call) and emits exactly three lines: a separator rule, the
column-header line containing Benchmark | Performance | Time with its fixed
padding, and a separator rule again — the title line is printed by
`__main__`, not by `print_header`; the rule is two spaces of indent followed
by 61 dashes. -/
theorem c5_print_header :
    print_header = [dashRule, "  Benchmark       |     Performance | Time", dashRule] ∧
    print_header.length = 3 ∧
    dashRule.data = List.replicate 2 ' ' ++ List.replicate 61 '-' :=
  ⟨by decide, rfl, by decide⟩

/-- Claim C6: the five benchmarks use exactly the fixed iteration counts and
per-iteration operations of the table: the integer loop counts to
1,000,000,000 by increments of 1; the double loop runs 100,000,000 body
executions each adding 1.1, ending at 100,000,000 × 1.1; the string loop runs
50,000 body executions each appending one character "a", ending as 50,000
repetitions of "a"; the array loop runs 1,000,000 body executions each
appending the loop index, ending as [0, …, 999999]; the struct loop runs
50,000,000 body executions each writing then reading the single field. -/
theorem c6_fixed_counts_and_ops :
    intLoop 1000000000 0 = 1000000000 ∧
    (∀ limit i : Nat, i < limit → intLoop limit i = intLoop limit (i + 1)) ∧
    whileLoop doubleStep 100000000 0 0 =
      ((List.range 100000000).foldl doubleStep 0, 100000000) ∧
    (List.range 100000000).foldl doubleStep 0 = ((100000000 : Nat) : ℚ) * (11 / 10) ∧
    (∀ (v : ℚ) (i : Nat), doubleStep v i = v + 11 / 10) ∧
    whileLoop stringStep 50000 0 "" =
      ((List.range 50000).foldl stringStep "", 50000) ∧
    (List.range 50000).foldl stringStep "" = String.mk (List.replicate 50000 'a') ∧
    (∀ (s : String) (i : Nat), stringStep s i = s ++ "a") ∧
    whileLoop arrayStep 1000000 0 ([] : List Nat) =
      ((List.range 1000000).foldl arrayStep [], 1000000) ∧
    (List.range 1000000).foldl arrayStep ([] : List Nat) = List.range 1000000 ∧
    (∀ (l : List Nat) (i : Nat), arrayStep l i = l ++ [i]) ∧
    whileLoop structStep 50000000 0 (Obj.mk 0, 0) =
      ((List.range 50000000).foldl structStep (Obj.mk 0, 0), 50000000) ∧
    (∀ (p : Obj × Nat) (i : Nat), structStep p i = (Obj.mk i, i)) ∧
    (List.range 50000000).foldl structStep (Obj.mk 0, 0) =
      (Obj.mk 49999999, 49999999) := by
  refine ⟨intLoop_zero 1000000000, fun limit i h => by rw [intLoop, if_pos h],
    whileLoop_zero doubleStep 100000000 0, by rw [foldl_doubleStep, zero_add],
    fun v i => rfl,
    whileLoop_zero stringStep 50000 "",
    by rw [foldl_stringStep]; exact congrArg String.mk (List.nil_append _),
    fun s i => rfl,
    whileLoop_zero arrayStep 1000000 [],
    by rw [foldl_arrayStep]; exact List.nil_append _,
    fun l i => rfl,
    whileLoop_zero structStep 50000000 (Obj.mk 0, 0), fun p i => rfl, ?_⟩
  have h := foldl_structStep 49999999 (Obj.mk 0, 0)
  norm_num at h
  exact h

/-- Witness for C6: at the concrete bound 2 with counter 1 the integer loop
takes one step, incrementing its counter by exactly 1. -/
theorem c6_fixed_counts_and_ops_witness :
    intLoop 2 1 = intLoop 2 (1 + 1) :=
  c6_fixed_counts_and_ops.2.1 2 1 (by norm_num)

/-- Claim C7: in the struct benchmark the object holds a single mutable
numeric field initialised to 0, and the field holds the last value written:
executing the loop body at index i leaves the field equal to i and the value
read back equal to the field; the loop's final state after n+1 iterations
depends only on the last write, never on the object's earlier contents. -/
theorem c7_struct_last_write :
    (Obj.mk 0).val = 0 ∧
    (∀ (p : Obj × Nat) (i : Nat), structStep p i = (Obj.mk i, i)) ∧
    (∀ (p : Obj × Nat) (i : Nat), (structStep p i).1.val = i ∧
      (structStep p i).2 = (structStep p i).1.val) ∧
    (∀ (n : Nat) (p : Obj × Nat),
      (List.range (n + 1)).foldl structStep p = (Obj.mk n, n)) :=
  ⟨rfl, fun _ _ => rfl, fun _ _ => ⟨rfl, rfl⟩, fun n p => foldl_structStep n p⟩

/-- Claim C8: any two runs whose sampled elapsed times are all non-zero print
reports of identical structure: both are the same fixed 11-line template
instantiated at their own elapsed times, they have the same number of lines,
and the label field (the first 17 characters) of every line is identical
across the two runs; only the numeric throughput and time values differ. -/
theorem c8_two_runs_same_structure (ca cb : Nat → ℚ)
    (ha1 : ca 1 - ca 0 ≠ 0) (ha2 : ca 3 - ca 2 ≠ 0) (ha3 : ca 5 - ca 4 ≠ 0)
    (ha4 : ca 7 - ca 6 ≠ 0) (ha5 : ca 9 - ca 8 ≠ 0)
    (hb1 : cb 1 - cb 0 ≠ 0) (hb2 : cb 3 - cb 2 ≠ 0) (hb3 : cb 5 - cb 4 ≠ 0)
    (hb4 : cb 7 - cb 6 ≠ 0) (hb5 : cb 9 - cb 8 ≠ 0) :
    pymain ca = Except.ok (report (ca 1 - ca 0) (ca 3 - ca 2) (ca 5 - ca 4)
      (ca 7 - ca 6) (ca 9 - ca 8)) ∧
    pymain cb = Except.ok (report (cb 1 - cb 0) (cb 3 - cb 2) (cb 5 - cb 4)
      (cb 7 - cb 6) (cb 9 - cb 8)) ∧
    (report (ca 1 - ca 0) (ca 3 - ca 2) (ca 5 - ca 4) (ca 7 - ca 6)
      (ca 9 - ca 8)).length =
      (report (cb 1 - cb 0) (cb 3 - cb 2) (cb 5 - cb 4) (cb 7 - cb 6)
        (cb 9 - cb 8)).length ∧
    (report (ca 1 - ca 0) (ca 3 - ca 2) (ca 5 - ca 4) (ca 7 - ca 6)
      (ca 9 - ca 8)).map lineLabel =
      (report (cb 1 - cb 0) (cb 3 - cb 2) (cb 5 - cb 4) (cb 7 - cb 6)
        (cb 9 - cb 8)).map lineLabel := by
  refine ⟨pymain_ok ca ha1 ha2 ha3 ha4 ha5, pymain_ok cb hb1 hb2 hb3 hb4 hb5, ?_, ?_⟩
  · simp [report, print_result, print_header]
  · rw [report_labels, report_labels]

/-- Witness for C8: the identity clock and the doubled clock give different
elapsed times but reports of identical structure. -/
theorem c8_two_runs_same_structure_witness :
    pymain tclock = Except.ok (report (tclock 1 - tclock 0) (tclock 3 - tclock 2)
      (tclock 5 - tclock 4) (tclock 7 - tclock 6) (tclock 9 - tclock 8)) ∧
    pymain tclock2 = Except.ok (report (tclock2 1 - tclock2 0) (tclock2 3 - tclock2 2)
      (tclock2 5 - tclock2 4) (tclock2 7 - tclock2 6) (tclock2 9 - tclock2 8)) ∧
    (report (tclock 1 - tclock 0) (tclock 3 - tclock 2) (tclock 5 - tclock 4)
      (tclock 7 - tclock 6) (tclock 9 - tclock 8)).length =
      (report (tclock2 1 - tclock2 0) (tclock2 3 - tclock2 2) (tclock2 5 - tclock2 4)
        (tclock2 7 - tclock2 6) (tclock2 9 - tclock2 8)).length ∧
    (report (tclock 1 - tclock 0) (tclock 3 - tclock 2) (tclock 5 - tclock 4)
      (tclock 7 - tclock 6) (tclock 9 - tclock 8)).map lineLabel =
      (report (tclock2 1 - tclock2 0) (tclock2 3 - tclock2 2) (tclock2 5 - tclock2 4)
        (tclock2 7 - tclock2 6) (tclock2 9 - tclock2 8)).map lineLabel :=
  c8_two_runs_same_structure tclock tclock2
    (by norm_num [tclock]) (by norm_num [tclock]) (by norm_num [tclock])
    (by norm_num [tclock]) (by norm_num [tclock])
    (by norm_num [tclock2]) (by norm_num [tclock2]) (by norm_num [tclock2])
    (by norm_num [tclock2]) (by norm_num [tclock2])

/-- Claim C9: the array benchmark's loop leaves its locally built sequence
exactly [0, 1, …, 999999] — length 1,000,000 with the element at every
position k equal to k — and the string benchmark's buffer ends as exactly
50,000 repetitions of the character "a". -/
theorem c9_array_string_contents :
    (whileLoop arrayStep 1000000 0 ([] : List Nat)).1 = List.range 1000000 ∧
    ((whileLoop arrayStep 1000000 0 ([] : List Nat)).1).length = 1000000 ∧
    (∀ k : Nat, k < 1000000 →
      List.get? ((whileLoop arrayStep 1000000 0 ([] : List Nat)).1) k = some k) ∧
    (whileLoop stringStep 50000 0 "").1 = String.mk (List.replicate 50000 'a') := by
  have ha : (whileLoop arrayStep 1000000 0 ([] : List Nat)).1 = List.range 1000000 := by
    rw [whileLoop_zero, foldl_arrayStep]
    exact List.nil_append _
  refine ⟨ha, ?_, ?_, ?_⟩
  · rw [ha, List.length_range]
  · intro k hk
    rw [ha]
    exact List.get?_range hk
  · rw [whileLoop_zero, foldl_stringStep]
    exact congrArg String.mk (List.nil_append _)

/-- Witness for C9: position 7 of the array benchmark's final sequence holds
the value 7. -/
theorem c9_array_string_contents_witness :
    List.get? ((whileLoop arrayStep 1000000 0 ([] : List Nat)).1) 7 = some 7 :=
  c9_array_string_contents.2.2.1 7 (by norm_num)

/-- Claim C10: every benchmark loop terminates: started at counter 0 it
performs exactly one body execution per element of the index sequence
[0, …, limit-1] and exits with its counter exactly at the fixed limit; the
counter advances by exactly 1 each iteration.  (Totality of the whole run
follows, every definition here being total.) -/
theorem c10_loops_terminate :
    (∀ limit : Nat, intLoop limit 0 = limit) ∧
    (∀ (limit : Nat) (v : ℚ), whileLoop doubleStep limit 0 v =
      ((List.range limit).foldl doubleStep v, limit)) ∧
    (∀ (limit : Nat) (s : String), whileLoop stringStep limit 0 s =
      ((List.range limit).foldl stringStep s, limit)) ∧
    (∀ (limit : Nat) (l : List Nat), whileLoop arrayStep limit 0 l =
      ((List.range limit).foldl arrayStep l, limit)) ∧
    (∀ (limit : Nat) (p : Obj × Nat), whileLoop structStep limit 0 p =
      ((List.range limit).foldl structStep p, limit)) ∧
    (∀ (limit i : Nat) (p : Obj × Nat), i < limit →
      whileLoop structStep limit i p =
        whileLoop structStep limit (i + 1) (structStep p i)) :=
  ⟨intLoop_zero, fun limit v => whileLoop_zero doubleStep limit v,
    fun limit s => whileLoop_zero stringStep limit s,
    fun limit l => whileLoop_zero arrayStep limit l,
    fun limit p => whileLoop_zero structStep limit p,
    fun limit i p h => by rw [whileLoop, if_pos h]⟩

/-- Witness for C10: at bound 2 from counter 0 the struct loop takes exactly
one step to counter 1. -/
theorem c10_loops_terminate_witness :
    whileLoop structStep 2 0 (Obj.mk 0, 0) =
      whileLoop structStep 2 (0 + 1) (structStep (Obj.mk 0, 0) 0) :=
  c10_loops_terminate.2.2.2.2.2 2 0 (Obj.mk 0, 0) (by norm_num)

end LangBench
